import Mathlib

/-!
Verification of the woosh-lifts message delivery reliability engine.

This development shallowly embeds the core components of the repository:

* `Ingest`   — idempotent ingestion (`ingestMessage` in src/lib/ingest,
  the second segment of src/src/lib/bridge.js), over a relational state of
  message rows and audit events;
* `RetryQ`   — the retry worker (`PICK_SQL`, `processOne`, `runForever` in
  src/src/lib/retryQueue.js) over a list of message rows, with the bridge
  outcome and store health supplied as explicit environment parameters;
* `WaClient` — the HTTP bridge client classification (`shouldRetry` in
  src/lib/waBridge.js and `sendText` in src/src/clients/waBridge.ts);
* `Breaker`  — the persisted circuit breaker (src/lib/breaker.js, the last
  segment of src/src/clients/waBridge.ts) as a pure state machine over an
  optional breaker row plus a store-availability flag modelling the
  try/catch blocks around every query;
* `SendRoute` — the first-attempt failure path of POST /send/text
  (src/src/routes/send.js), including `calculateNextAttempt` and the
  `DLQ_ENABLED` gate.

Machine timestamps are naturals (milliseconds); randomness (jitter) is an
explicit oracle argument; database queries that can fail are either modelled
with `Except` or, where the source wraps them in try/catch, with explicit
availability flags reproducing the catch behaviour.
-/

namespace WooshLifts

namespace Ingest

/-- The optional `meta` blob of a canonical inbound message.  Only the
`original` field is ever dereferenced by the code (`msg.meta.original`),
so the rest of the record is irrelevant to the embedding. -/
structure Meta where
  original : Option String := none
  deriving Repr, DecidableEq

/-- Canonical inbound message (the `InboundSms` typedef of src/lib/ingest):
`provider`, `provider_id`, `msisdn`, `text`, `ts` required, `meta` optional. -/
structure InboundSms where
  provider : String
  provider_id : String
  msisdn : String
  text : String
  ts : String
  meta : Option Meta := none
  deriving Repr, DecidableEq

/-- A row of the `messages` table as written by `ingestMessage`. -/
structure MsgRow where
  id : Nat
  channel : String
  provider : String
  provider_id : String
  direction : String
  from_msisdn : Option String
  to_msisdn : Option String
  body : Option String
  meta : Option Meta
  ts : String
  deriving Repr, DecidableEq

/-- A row of the `events` audit table as written by `ingestMessage`
(type `ingest`, payload with `ingested_ok`, `message_id` and a `meta`
object built from `msg.meta.original` and the provider). -/
structure EventRow where
  type : String
  message_id : Nat
  metaOriginal : Option String
  metaProvider : String
  deriving Repr, DecidableEq

/-- The relational state touched by ingestion: the `messages` and `events`
tables, plus the id generator (`gen_random_uuid` is modelled by a counter). -/
structure Db where
  messages : List MsgRow
  events : List EventRow
  nextId : Nat
  deriving Repr, DecidableEq

/-- The `SELECT id FROM messages WHERE provider = $1 AND provider_id = $2`
lookup used both for the idempotency pre-check and the conflict fallback. -/
def findMsg (db : Db) (provider provider_id : String) : Option MsgRow :=
  db.messages.find? (fun r => r.provider == provider && r.provider_id == provider_id)

/-- JavaScript errors that `ingestMessage` can raise inside the transaction. -/
inductive JsErr
  | typeError
  deriving Repr, DecidableEq

/-- Result shape of `ingestMessage`. -/
structure IngestResult where
  stored_message_id : Nat
  idempotent : Bool
  deriving Repr, DecidableEq

/-- The new `messages` row built by the INSERT of `ingestMessage`:
channel `sms`, direction `in`, `to_msisdn` NULL, id from the generator. -/
def insertedRow (db : Db) (msg : InboundSms) : MsgRow :=
  { id := db.nextId, channel := "sms", provider := msg.provider,
    provider_id := msg.provider_id, direction := "in",
    from_msisdn := some msg.msisdn, to_msisdn := none,
    body := some msg.text, meta := msg.meta, ts := msg.ts }

/-- The `ingest` audit event written after a successful new insertion; its
payload dereferences `msg.meta.original`, here received as the projection
of the already-unwrapped `meta`. -/
def ingestEvent (db : Db) (msg : InboundSms) (m : Meta) : EventRow :=
  { type := "ingest", message_id := db.nextId,
    metaOriginal := m.original, metaProvider := msg.provider }

/-- The post-state of a successful non-duplicate ingestion: the new message
row appended, the audit event appended, and the id generator advanced. -/
def ingestedDb (db : Db) (msg : InboundSms) (m : Meta) : Db :=
  { messages := db.messages ++ [insertedRow db msg],
    events := db.events ++ [ingestEvent db msg m],
    nextId := db.nextId + 1 }

/-- Shallow embedding of `ingestMessage` (src/lib/ingest).  Within one
transaction: select the existing row by (provider, provider_id) and return
it as idempotent; otherwise INSERT the new row (`ON CONFLICT DO NOTHING`
cannot fire in this sequential model because the preceding SELECT found
nothing), then write the `ingest` audit event whose payload reads
`msg.meta.original`.  When `meta` is absent that dereference raises a
TypeError before the event INSERT; the `Except.error` result models the
exception propagating out of `withTxn`, which rolls the partial INSERT
back. -/
def ingestMessage (db : Db) (msg : InboundSms) : Except JsErr (Db × IngestResult) :=
  match findMsg db msg.provider msg.provider_id with
  | some row => .ok (db, ⟨row.id, true⟩)
  | none =>
    match msg.meta with
    | none => .error .typeError
    | some m => .ok (ingestedDb db msg m, ⟨db.nextId, false⟩)

/-- The `withTxn` wrapper (src/db): COMMIT on success, ROLLBACK on an
exception.  On error the returned state is the original `db`, making the
rollback of the partial INSERT explicit. -/
def ingestTxn (db : Db) (msg : InboundSms) : Db × Except JsErr IngestResult :=
  match ingestMessage db msg with
  | .ok (db', r) => (db', .ok r)
  | .error e => (db, .error e)

end Ingest

namespace RetryQ

/-- A row of the `messages` table as seen by the retry worker
(src/src/lib/retryQueue.js): only the columns the worker reads or writes.
`wa_id` stands for the `meta -> wa_id` key written on success. -/
structure Row where
  id : Nat
  direction : String
  channel : String
  status : Option String
  next_attempt_at : Option Nat
  to_msisdn : Option String
  body : Option String
  ts : Nat
  attempt_count : Option Nat
  last_error : Option String
  last_error_at : Option Nat
  wa_id : Option String
  deriving Repr, DecidableEq

/-- The status filter of PICK_SQL: `status IS NULL OR status = 'queued'`. -/
def statusEligible : Option String → Bool
  | none => true
  | some s => s == "queued"

/-- The schedule filter of PICK_SQL:
`next_attempt_at IS NULL OR next_attempt_at <= now()`. -/
def timeEligible (now : Nat) : Option Nat → Bool
  | none => true
  | some t => t ≤ now

/-- SQL `trim`: strip spaces from both ends, over the character list. -/
def sqlTrim (cs : List Char) : List Char :=
  ((cs.dropWhile (· == ' ')).reverse.dropWhile (· == ' ')).reverse

/-- The destination filter of PICK_SQL:
`to_msisdn IS NOT NULL AND length(trim(to_msisdn)) > 0`. -/
def msisdnPresent : Option String → Bool
  | none => false
  | some s => 0 < (sqlTrim s.data).length

/-- The WHERE clause of PICK_SQL. -/
def eligible (now : Nat) (r : Row) : Bool :=
  r.direction == "out" && r.channel == "wa" && statusEligible r.status &&
    timeEligible now r.next_attempt_at && msisdnPresent r.to_msisdn

/-- ORDER BY ts ASC LIMIT 1: the earliest row by `ts`, keeping the earlier
list position on ties. -/
def minByTs : List Row → Option Row
  | [] => none
  | r :: rs =>
    match minByTs rs with
    | none => some r
    | some b => if b.ts < r.ts then some b else some r

/-- The row selected by PICK_SQL's inner CTE. -/
def pickCandidate (now : Nat) (rows : List Row) : Option Row :=
  minByTs (rows.filter (eligible now))

/-- The UPDATE half of PICK_SQL:
`attempt_count = COALESCE(attempt_count, 0) + 1`, errors cleared. -/
def applyClaim (r : Row) : Row :=
  { r with attempt_count := some (r.attempt_count.getD 0 + 1),
           last_error := none, last_error_at := none }

/-- An UPDATE ... WHERE id = i over the table. -/
def updRow (rows : List Row) (i : Nat) (f : Row → Row) : List Row :=
  rows.map (fun r => if r.id == i then f r else r)

/-- One execution of PICK_SQL inside its own BEGIN/COMMIT: select a
candidate and increment its attempt count atomically, returning the
claimed row (as updated) together with the committed table. -/
def claimStep (now : Nat) (rows : List Row) : Option (Row × List Row) :=
  match pickCandidate now rows with
  | none => none
  | some c => some (applyClaim c, updRow rows c.id applyClaim)

/-- The candidate selection as seen by a transaction running while another
transaction holds row locks: FOR UPDATE SKIP LOCKED removes locked rows
from the selection. -/
def pickCandidateLocked (now : Nat) (locked : List Nat) (rows : List Row) : Option Row :=
  minByTs (rows.filter (fun r => eligible now r && !(locked.contains r.id)))

/-- Outcome of the `sendText` bridge call as observed by `processOne`'s
catch block: either the resolved body, or a thrown error whose `code`
is the HTTP status — `Number(err.code) || 0` maps a network failure
(no numeric code) to 0. -/
inductive BridgeRes
  | ok (waId : Option String)
  | err (code : Nat) (message : String)
  deriving Repr, DecidableEq

/-- Environment of one `processOne` call: the bridge outcome and whether
the two follow-up UPDATE queries (success path, catch path) succeed
against the store. -/
structure Env where
  bridge : BridgeRes
  sendUpdOk : Bool
  failUpdOk : Bool
  deriving Repr, DecidableEq

/-- The worker-visible database: message rows plus the audit `events`
table (which `processOne` never writes). -/
structure WDb where
  rows : List Row
  events : List String
  deriving Repr, DecidableEq

/-- The backoff of the requeue UPDATE, in milliseconds:
`make_interval(secs => 30 * LEAST(10, attempt_count + 1))`. -/
def workerBackoffMs (attemptCount : Nat) : Nat :=
  30000 * Nat.min 10 (attemptCount + 1)

/-- The success UPDATE: status `sent`, wa_id recorded, errors cleared. -/
def markSent (waId : Option String) (r : Row) : Row :=
  { r with status := some "sent", wa_id := waId,
           last_error := none, last_error_at := none }

/-- The terminal-failure UPDATE (4xx): status `permanently_failed`,
last_error and last_error_at recorded.  No event row is written. -/
def markPermanentlyFailed (now : Nat) (message : String) (r : Row) : Row :=
  { r with status := some "permanently_failed",
           last_error := some message, last_error_at := some now }

/-- The requeue UPDATE (anything non-4xx): status back to `queued`,
`next_attempt_at = now() + make_interval(secs => 30 * LEAST(10,
attempt_count + 1))` (SQL NULL propagation kept: a NULL attempt_count
would yield a NULL next_attempt_at), last_error recorded. -/
def markRequeued (now : Nat) (message : String) (r : Row) : Row :=
  { r with status := some "queued",
           next_attempt_at := r.attempt_count.map (fun k => now + workerBackoffMs k),
           last_error := some message, last_error_at := some now }

/-- Result of one `processOne` call: `idle` when no row was eligible
(returned false), `done` when a row was processed (returned true), and
`crash` when a store error escaped the catch block, rejecting the
promise returned by `processOne`. -/
inductive StepOut
  | idle (db : WDb)
  | done (db : WDb)
  | crash (db : WDb)
  deriving Repr, DecidableEq

/-- The post-claim half of `processOne` (src/src/lib/retryQueue.js): call
the bridge, then write the outcome with a separate UPDATE on the claimed
id.  The catch block classifies `Number(err.code) || 0`: codes in
[400, 500) mark the row `permanently_failed`; everything else (5xx,
network errors as 0, and errors thrown by the success UPDATE itself,
which re-enter the same catch with a non-numeric code) requeues the row
with backoff.  A failing UPDATE inside the catch block escapes
`processOne`, rejecting its promise. -/
def processClaimed (now : Nat) (env : Env) (db1 : WDb) (cid : Nat) : StepOut :=
  match env.bridge with
  | .ok waId =>
    if env.sendUpdOk then
      .done { db1 with rows := updRow db1.rows cid (markSent waId) }
    else if env.failUpdOk then
      .done { db1 with rows := updRow db1.rows cid (markRequeued now "store_error") }
    else .crash db1
  | .err code message =>
    if 400 ≤ code ∧ code < 500 then
      if env.failUpdOk then
        .done { db1 with rows := updRow db1.rows cid (markPermanentlyFailed now message) }
      else .crash db1
    else
      if env.failUpdOk then
        .done { db1 with rows := updRow db1.rows cid (markRequeued now message) }
      else .crash db1

/-- Shallow embedding of `processOne` (src/src/lib/retryQueue.js): claim a
row with PICK_SQL (committed immediately by the surrounding
BEGIN/COMMIT), then process the claimed row. -/
def processOne (now : Nat) (env : Env) (db : WDb) : StepOut :=
  match claimStep now db.rows with
  | none => .idle db
  | some (c, rows1) => processClaimed now env { db with rows := rows1 } c.id

/-- Environment of the polling loop: per-iteration bridge outcomes and
store health. -/
structure LoopEnv where
  bridgeAt : Nat → BridgeRes
  sendUpdOkAt : Nat → Bool
  failUpdOkAt : Nat → Bool

/-- How a bounded observation of `runForever` ended: `fuelSpent` means the
loop was still running when the observation budget ran out; `stopped`
means `processOne` rejected, `runForever`'s promise rejected with it, and
the single `.catch` in `startRetryProcessor` logged the error — nothing
restarts the loop. -/
inductive LoopEnd
  | fuelSpent
  | stopped
  deriving Repr, DecidableEq

/-- The environment of iteration `i`. -/
def envAt (le : LoopEnv) (i : Nat) : Env :=
  ⟨le.bridgeAt i, le.sendUpdOkAt i, le.failUpdOkAt i⟩

/-- Shallow embedding of `runForever` under `startRetryProcessor`
(src/src/lib/retryQueue.js), observed for `fuel` iterations starting at
iteration `i`: each iteration runs `processOne` and continues regardless
of whether work was found, but an escaping store error terminates the
loop permanently. -/
def runLoop (le : LoopEnv) (now : Nat) : Nat → Nat → WDb → WDb × LoopEnd
  | 0, _, db => (db, .fuelSpent)
  | fuel + 1, i, db =>
    match processOne now (envAt le i) db with
    | .idle db' => runLoop le now fuel (i + 1) db'
    | .done db' => runLoop le now fuel (i + 1) db'
    | .crash db' => (db', .stopped)

/-- The database component of a `processOne` result. -/
def stepDb : StepOut → WDb
  | .idle db => db
  | .done db => db
  | .crash db => db

/-- A concrete freshly-enqueued outbound WA row used by the concrete
evaluations: queued, eligible now, no attempts yet. -/
def row8 : Row :=
  { id := 1, direction := "out", channel := "wa", status := some "queued",
    next_attempt_at := some 0, to_msisdn := some "+27824537125",
    body := some "hi", ts := 0, attempt_count := some 0,
    last_error := none, last_error_at := none, wa_id := none }

/-- A second eligible row, enqueued just after `row8`. -/
def row9 : Row :=
  { row8 with id := 2, ts := 1 }

/-- A loop environment whose bridge always answers HTTP 500 and whose
store rejects every follow-up UPDATE. -/
def crashLoopEnv : LoopEnv :=
  { bridgeAt := fun _ => .err 500 "bridge_500",
    sendUpdOkAt := fun _ => false,
    failUpdOkAt := fun _ => false }

/-- A loop environment whose bridge always answers HTTP 500 but whose
store accepts every UPDATE. -/
def healthyLoopEnv : LoopEnv :=
  { bridgeAt := fun _ => .err 500 "bridge_500",
    sendUpdOkAt := fun _ => true,
    failUpdOkAt := fun _ => true }

/-- A queued row that has already been attempted 100 times. -/
def rowMany : Row :=
  { row8 with id := 3, attempt_count := some 100 }

/-- A row that has already reached the terminal `sent` status. -/
def rowSent : Row :=
  { row8 with id := 4, status := some "sent" }

end RetryQ

namespace WaClient

/-- shouldRetry from src/lib/waBridge.js: retry on 5xx, rate limiting
(429) and request timeout (408).  A network failure is recorded by
`makeRequest` as `httpCode` 0 and therefore does not satisfy this
predicate. -/
def shouldRetry (statusCode : Nat) : Bool :=
  500 ≤ statusCode || statusCode == 429 || statusCode == 408

/-- sendText from src/src/clients/waBridge.ts: resolves with the body on
a 2xx response whose JSON body carries `ok = true`; otherwise throws an
error whose `code` is the HTTP status.  The worker coerces a missing
numeric code (network failure) to 0 before classifying. -/
def sendTextOutcome (status : Nat) (bodyOk : Bool) (waId : Option String) : RetryQ.BridgeRes :=
  if (200 ≤ status && status < 300) && bodyOk then .ok waId
  else .err status ("bridge_" ++ toString status)

end WaClient

namespace Breaker

/-- Breaker states (BREAKER_STATES in src/lib/breaker.js). -/
inductive BState
  | closed
  | opened
  | halfOpen
  deriving Repr, DecidableEq

/-- The single `breaker_state` row for service `wa_bridge`. -/
structure BRow where
  state : BState
  failure_count : Nat
  success_count : Nat
  opened_at : Option Nat
  updated_at : Nat
  deriving Repr, DecidableEq

/-- The store as the breaker sees it: an availability flag (queries throw
when false, reproducing every catch block) and the optional row. -/
structure BStore where
  available : Bool
  row : Option BRow
  deriving Repr, DecidableEq

/-- BREAKER_FAIL_THRESHOLD default. -/
def failThreshold : Nat := 8

/-- BREAKER_HALF_OPEN_AFTER default, in seconds. -/
def halfOpenAfterSec : Nat := 60

/-- successThreshold (hard-coded 3). -/
def successThreshold : Nat := 3

/-- updateBreakerState: upsert the row, with `opened_at = now` exactly
when the new state is open and NULL otherwise.  A store error is caught
and swallowed, leaving the store unchanged. -/
def updateBreakerState (s : BStore) (st : BState) (failureCount successCount now : Nat) : BStore :=
  if s.available then
    let r : BRow :=
      { state := st, failure_count := failureCount,
        success_count := successCount,
        opened_at := if st = .opened then some now else none,
        updated_at := now }
    { s with row := some r }
  else s

/-- getBreakerState: no row means closed; an open row whose cooldown has
elapsed is rewritten to half_open with both counters reset before being
reported (`new Date(null)` makes a NULL opened_at behave as the epoch);
a store error is caught and reported as closed. -/
def getBreakerState (s : BStore) (now : Nat) : BState × BStore :=
  if s.available then
    match s.row with
    | none => (.closed, s)
    | some r =>
      if r.state = .opened then
        if 1000 * halfOpenAfterSec ≤ now - r.opened_at.getD 0 then
          (.halfOpen, updateBreakerState s .halfOpen 0 0 now)
        else (.opened, s)
      else (r.state, s)
  else (.closed, s)

/-- recordAttempt: read the current state (possibly performing the
open-to-half_open transition), then
closed + success resets the failure count,
closed + failure increments it and opens the breaker at the threshold,
half_open + success increments the success count and closes the breaker
at the success threshold,
half_open + failure reopens the breaker with failure_count 1,
and open records nothing.  Every store error is caught and swallowed. -/
def recordAttempt (s : BStore) (now : Nat) (success : Bool) : BStore :=
  let res := getBreakerState s now
  let s1 := res.2
  match res.1 with
  | .closed =>
    if success then updateBreakerState s1 .closed 0 0 now
    else
      if s1.available then
        let currentFailures := match s1.row with | some r => r.failure_count | none => 0
        let newFailureCount := currentFailures + 1
        if failThreshold ≤ newFailureCount then
          updateBreakerState s1 .opened newFailureCount 0 now
        else
          updateBreakerState s1 .closed newFailureCount 0 now
      else s1
  | .halfOpen =>
    if success then
      if s1.available then
        let currentSuccesses := match s1.row with | some r => r.success_count | none => 0
        let newSuccessCount := currentSuccesses + 1
        if successThreshold ≤ newSuccessCount then
          updateBreakerState s1 .closed 0 0 now
        else
          updateBreakerState s1 .halfOpen 0 newSuccessCount now
      else s1
    else updateBreakerState s1 .opened 1 0 now
  | .opened => s1

/-- isRequestAllowed: allowed unless the reported state is open. -/
def isRequestAllowed (s : BStore) (now : Nat) : Bool × BStore :=
  let res := getBreakerState s now
  (if res.1 = .opened then false else true, res.2)

/-- A number of consecutive recorded failures, at the given times. -/
def recordFailures (s : BStore) (ts : List Nat) : BStore :=
  ts.foldl (fun acc t => recordAttempt acc t false) s

end Breaker

namespace SendRoute

/-- JavaScript `parseInt` on the delay strings: the value of the leading
digit run, if any. -/
def leadDigitsVal (s : String) : Option Nat :=
  let ds := s.toList.takeWhile Char.isDigit
  if ds.isEmpty then none
  else some (ds.foldl (fun a c => a * 10 + (c.toNat - 48)) 0)

/-- JavaScript `delayStr.endsWith(c)` for a one-character suffix: the
last character of the string equals `c`. -/
def endsWithChar (s : String) (c : Char) : Bool :=
  match s.data.getLast? with
  | some d => d == c
  | none => false

/-- The per-entry delay parsing inside `calculateNextAttempt`
(src/src/routes/send.js): a trailing `s` means seconds, a trailing `m`
minutes, anything else defaults to one second.  (`parseInt` cannot yield
NaN on the default schedule, so the `getD 0` fallback is unreachable
there.) -/
def parseDelayEntry (s : String) : Nat :=
  if endsWithChar s 's' then (leadDigitsVal s).getD 0 * 1000
  else if endsWithChar s 'm' then (leadDigitsVal s).getD 0 * 60000
  else 1000

/-- The RETRY_SCHEDULE default, already split on commas. -/
def defaultScheduleStr : List String := ["1s", "4s", "15s", "60s"]

/-- The RETRY_JITTER_MS default. -/
def defaultJitterMs : Nat := 200

/-- The RETRY_MAX_ATTEMPTS default. -/
def defaultMaxAttempts : Nat := 4

/-- calculateNextAttempt (src/src/routes/send.js) under the default
schedule: index `min(attemptNumber - 1, length - 1)` into the schedule,
parse the delay, add the jitter (`Math.random() * jitterMs`, supplied
here as an explicit oracle value).  Callers always pass an attempt
number of at least 1. -/
def calculateNextAttempt (nowMs attemptNumber jitter : Nat) : Nat :=
  let sched := defaultScheduleStr
  let delayIndex := Nat.min (attemptNumber - 1) (sched.length - 1)
  let baseDelay := parseDelayEntry (sched.getD delayIndex "")
  nowMs + baseDelay + jitter

/-- The observable outcome of the failure handling of `sendTextMessage`:
the message row fields it writes, the number of dead-letter events
inserted, and the HTTP response status. -/
structure RouteOutcome where
  status : String
  attempt_count : Nat
  last_error : Option String
  next_attempt_at : Option Nat
  dlqEventCount : Nat
  httpResponse : Nat
  deriving Repr, DecidableEq

/-- The DLQ gate of src/src/routes/send.js:
`process.env.DLQ_ENABLED === 'true'` — any other value of the
environment variable, including its absence, disables the emitter. -/
def dlqEnabled (dlqEnv : Option String) : Bool :=
  dlqEnv == some "true"

/-- The failure branch of `sendTextMessage` (src/src/routes/send.js,
after `sendMessage` returned an unsuccessful response): when
`1 >= maxAttempts` the message is marked permanently_failed and one
`dlq_message_failed` event is inserted when the DLQ gate is on;
otherwise the message is requeued for attempt 2 via
`calculateNextAttempt(1)`. -/
def sendTextFailurePath (nowMs maxAttempts : Nat) (dlqEnv : Option String)
    (errMsg : String) (jitter : Nat) : RouteOutcome :=
  if maxAttempts ≤ 1 then
    { status := "permanently_failed", attempt_count := 1,
      last_error := some errMsg, next_attempt_at := none,
      dlqEventCount := if dlqEnabled dlqEnv then 1 else 0,
      httpResponse := 502 }
  else
    { status := "queued", attempt_count := 1,
      last_error := some errMsg,
      next_attempt_at := some (calculateNextAttempt nowMs 1 jitter),
      dlqEventCount := 0, httpResponse := 202 }

end SendRoute

namespace Ingest

theorem find?_append_of_none {α : Type} (p : α → Bool) (l l' : List α)
    (h : l.find? p = none) : (l ++ l').find? p = l'.find? p := by
  induction l with
  | nil => simp
  | cons a as ih =>
    cases hp : p a with
    | true => simp [List.find?_cons_of_pos _ hp] at h
    | false =>
      rw [List.cons_append, List.find?_cons_of_neg _ (by simp [hp])]
      rw [List.find?_cons_of_neg _ (by simp [hp])] at h
      exact ih h

theorem findMsg_ingestedDb (db : Db) (msg : InboundSms) (m : Meta)
    (hfresh : findMsg db msg.provider msg.provider_id = none) :
    findMsg (ingestedDb db msg m) msg.provider msg.provider_id
      = some (insertedRow db msg) := by
  unfold findMsg at hfresh ⊢
  unfold ingestedDb
  rw [find?_append_of_none _ _ _ hfresh]
  simp [insertedRow]

/-- C1: for a canonical inbound message whose (provider, provider_id) pair
is not yet stored and whose meta blob is present, `ingestMessage` stores the
message once and returns `idempotent = false`; a second `ingestMessage` with
the same message returns the same stored id with `idempotent = true`,
leaves the database unchanged, and in particular creates no new message
row (the store grew by exactly one row over the whole pair of calls). -/
theorem ingest_pair_idempotent (db : Db) (msg : InboundSms) (m : Meta)
    (hfresh : findMsg db msg.provider msg.provider_id = none)
    (hmeta : msg.meta = some m) :
    ingestMessage db msg = .ok (ingestedDb db msg m, ⟨db.nextId, false⟩) ∧
    ingestMessage (ingestedDb db msg m) msg
      = .ok (ingestedDb db msg m, ⟨db.nextId, true⟩) ∧
    (ingestedDb db msg m).messages.length = db.messages.length + 1 := by
  refine ⟨?_, ?_, ?_⟩
  · simp [ingestMessage, hfresh, hmeta]
  · simp [ingestMessage, findMsg_ingestedDb db msg m hfresh, insertedRow]
  · simp [ingestedDb]

/-- Witness for C1 at the concrete spec scenario input (twilio / SM123). -/
theorem ingest_pair_idempotent_witness :
    ingestMessage ⟨[], [], 0⟩
        ⟨"twilio", "SM123", "+27824537125", "help", "2025-09-24T00:00:00Z", some ⟨none⟩⟩
      = .ok (ingestedDb ⟨[], [], 0⟩
        ⟨"twilio", "SM123", "+27824537125", "help", "2025-09-24T00:00:00Z", some ⟨none⟩⟩ ⟨none⟩,
        ⟨0, false⟩) ∧
    ingestMessage (ingestedDb ⟨[], [], 0⟩
        ⟨"twilio", "SM123", "+27824537125", "help", "2025-09-24T00:00:00Z", some ⟨none⟩⟩ ⟨none⟩)
        ⟨"twilio", "SM123", "+27824537125", "help", "2025-09-24T00:00:00Z", some ⟨none⟩⟩
      = .ok (ingestedDb ⟨[], [], 0⟩
        ⟨"twilio", "SM123", "+27824537125", "help", "2025-09-24T00:00:00Z", some ⟨none⟩⟩ ⟨none⟩,
        ⟨0, true⟩) ∧
    (ingestedDb ⟨[], [], 0⟩
        ⟨"twilio", "SM123", "+27824537125", "help", "2025-09-24T00:00:00Z", some ⟨none⟩⟩
        ⟨none⟩).messages.length = ([] : List MsgRow).length + 1 :=
  ingest_pair_idempotent ⟨[], [], 0⟩
    ⟨"twilio", "SM123", "+27824537125", "help", "2025-09-24T00:00:00Z", some ⟨none⟩⟩
    ⟨none⟩ (by decide) rfl

/-- C10: for an otherwise-valid, non-duplicate message whose optional meta
field is absent, `ingestMessage` raises a TypeError (the unconditional
`msg.meta.original` dereference while building the audit payload), the
transaction rolls back, and the message is not stored: the database state
after `ingestTxn` is the original one. -/
theorem ingest_meta_absent_throws (db : Db) (msg : InboundSms)
    (hfresh : findMsg db msg.provider msg.provider_id = none)
    (hmeta : msg.meta = none) :
    ingestTxn db msg = (db, .error .typeError) := by
  simp [ingestTxn, ingestMessage, hfresh, hmeta]

/-- Witness for C10: a fresh twilio message with meta absent is rejected
with a TypeError and the (empty) store is left unchanged. -/
theorem ingest_meta_absent_throws_witness :
    ingestTxn ⟨[], [], 0⟩
        ⟨"twilio", "SM999", "+27824537125", "help", "2025-09-24T00:00:00Z", none⟩
      = (⟨[], [], 0⟩, .error .typeError) :=
  ingest_meta_absent_throws ⟨[], [], 0⟩
    ⟨"twilio", "SM999", "+27824537125", "help", "2025-09-24T00:00:00Z", none⟩
    (by decide) rfl

end Ingest

namespace RetryQ

theorem minByTs_mem (l : List Row) (c : Row) (h : minByTs l = some c) : c ∈ l := by
  induction l generalizing c with
  | nil => simp [minByTs] at h
  | cons r rs ih =>
    unfold minByTs at h
    split at h
    · cases h
      exact List.mem_cons_self _ _
    · rename_i b hm
      split at h <;> cases h
      · exact List.mem_cons_of_mem _ (ih _ hm)
      · exact List.mem_cons_self _ _

theorem pickCandidate_spec (now : Nat) (rows : List Row) (c : Row)
    (h : pickCandidate now rows = some c) : c ∈ rows ∧ eligible now c = true := by
  unfold pickCandidate at h
  have hmem := minByTs_mem _ _ h
  rw [List.mem_filter] at hmem
  exact hmem

theorem pickCandidateLocked_skips (now : Nat) (locked : List Nat) (rows : List Row)
    (d : Row) (h : pickCandidateLocked now locked rows = some d) :
    ¬ d.id ∈ locked := by
  unfold pickCandidateLocked at h
  have hmem := minByTs_mem _ _ h
  rw [List.mem_filter] at hmem
  intro hd
  have := hmem.2
  simp [List.contains, hd] at this

theorem mem_updRow_of_ne (rows : List Row) (i : Nat) (f : Row → Row) (r : Row)
    (hr : r ∈ rows) (hne : r.id ≠ i) : r ∈ updRow rows i f := by
  unfold updRow
  have heq : (fun x => if x.id == i then f x else x) r = r := by simp [hne]
  exact heq ▸ List.mem_map_of_mem _ hr

theorem claimStep_single (now : Nat) (r : Row) (helig : eligible now r = true) :
    claimStep now [r] = some (applyClaim r, [applyClaim r]) := by
  unfold claimStep pickCandidate
  rw [show List.filter (eligible now) [r] = [r] by simp [helig]]
  show some (applyClaim r, updRow [r] r.id applyClaim) = _
  simp [updRow]

theorem processOne_single_ok (now : Nat) (r : Row) (evs : List String)
    (waId : Option String) (helig : eligible now r = true) :
    processOne now ⟨.ok waId, true, true⟩ ⟨[r], evs⟩
      = .done ⟨[markSent waId (applyClaim r)], evs⟩ := by
  unfold processOne
  rw [claimStep_single now r helig]
  simp [processClaimed, updRow]

theorem processOne_single_err_terminal (now code : Nat) (r : Row) (evs : List String)
    (message : String) (helig : eligible now r = true)
    (h4 : 400 ≤ code) (h5 : code < 500) :
    processOne now ⟨.err code message, true, true⟩ ⟨[r], evs⟩
      = .done ⟨[markPermanentlyFailed now message (applyClaim r)], evs⟩ := by
  unfold processOne
  rw [claimStep_single now r helig]
  simp [processClaimed, updRow, h4, h5]

theorem processOne_single_err_retry (now code : Nat) (r : Row) (evs : List String)
    (message : String) (helig : eligible now r = true)
    (hcode : ¬ (400 ≤ code ∧ code < 500)) :
    processOne now ⟨.err code message, true, true⟩ ⟨[r], evs⟩
      = .done ⟨[markRequeued now message (applyClaim r)], evs⟩ := by
  unfold processOne
  rw [claimStep_single now r helig]
  simp [processClaimed, updRow, hcode]

theorem processClaimed_events (now : Nat) (env : Env) (db1 : WDb) (cid : Nat) :
    (stepDb (processClaimed now env db1 cid)).events = db1.events := by
  unfold processClaimed
  split
  · split
    · rfl
    · split <;> rfl
  · split
    · split <;> rfl
    · split <;> rfl

theorem processOne_events (now : Nat) (env : Env) (db : WDb) :
    (stepDb (processOne now env db)).events = db.events := by
  unfold processOne
  cases claimStep now db.rows with
  | none => rfl
  | some p =>
    obtain ⟨c, rows1⟩ := p
    exact processClaimed_events now env { db with rows := rows1 } c.id

theorem processClaimed_crash_store (now : Nat) (env : Env) (db1 d : WDb) (cid : Nat)
    (h : processClaimed now env db1 cid = .crash d) : env.failUpdOk = false := by
  unfold processClaimed at h
  split at h
  · split at h
    · cases h
    · split at h
      · cases h
      · rename_i hfu
        simpa using hfu
  · split at h
    · split at h
      · cases h
      · rename_i hfu
        simpa using hfu
    · split at h
      · cases h
      · rename_i hfu
        simpa using hfu

theorem processOne_crash_store (now : Nat) (env : Env) (db d : WDb)
    (h : processOne now env db = .crash d) : env.failUpdOk = false := by
  unfold processOne at h
  cases hcl : claimStep now db.rows with
  | none => rw [hcl] at h; cases h
  | some p =>
    rw [hcl] at h
    obtain ⟨c, rows1⟩ := p
    exact processClaimed_crash_store now env { db with rows := rows1 } d c.id h

theorem eligible_terminal_false (now : Nat) (r : Row)
    (hterm : r.status = some "sent" ∨ r.status = some "permanently_failed") :
    eligible now r = false := by
  have hst : statusEligible r.status = false := by
    rcases hterm with h | h <;> rw [h] <;> rfl
  simp [eligible, hst]

theorem pick_ne_terminal (now : Nat) (db : WDb) (r c : Row)
    (hmem : r ∈ db.rows) (hnd : (db.rows.map Row.id).Nodup)
    (hterm : r.status = some "sent" ∨ r.status = some "permanently_failed")
    (hc : pickCandidate now db.rows = some c) : c.id ≠ r.id := by
  obtain ⟨hcm, hce⟩ := pickCandidate_spec now db.rows c hc
  intro hid
  have hcr : c = r := List.inj_on_of_nodup_map hnd hcm hmem hid
  rw [hcr, eligible_terminal_false now r hterm] at hce
  cases hce

theorem processClaimed_rows_mem (now : Nat) (env : Env) (db1 : WDb) (cid : Nat)
    (r : Row) (hr : r ∈ db1.rows) (hne : r.id ≠ cid) :
    r ∈ (stepDb (processClaimed now env db1 cid)).rows := by
  unfold processClaimed
  split
  · split
    · exact mem_updRow_of_ne _ _ _ _ hr hne
    · split
      · exact mem_updRow_of_ne _ _ _ _ hr hne
      · exact hr
  · split
    · split
      · exact mem_updRow_of_ne _ _ _ _ hr hne
      · exact hr
    · split
      · exact mem_updRow_of_ne _ _ _ _ hr hne
      · exact hr

/-- C7: once a message row has reached `sent` or `permanently_failed`, it
is never selected by PICK_SQL (the status filter excludes it), and a full
worker step — whatever the bridge outcome and store health — leaves the
row itself untouched in the table and writes no audit event (this worker
writes no attempt rows at all: `recordWaAttempt` is a stub).  Row ids are
assumed unique, as enforced by the primary key. -/
theorem terminal_states_absorbing (now : Nat) (env : Env) (db : WDb) (r : Row)
    (hmem : r ∈ db.rows) (hnd : (db.rows.map Row.id).Nodup)
    (hterm : r.status = some "sent" ∨ r.status = some "permanently_failed") :
    (∀ c, pickCandidate now db.rows = some c → c.id ≠ r.id) ∧
    r ∈ (stepDb (processOne now env db)).rows ∧
    (stepDb (processOne now env db)).events = db.events := by
  have hpick : ∀ c, pickCandidate now db.rows = some c → c.id ≠ r.id :=
    fun c hc => pick_ne_terminal now db r c hmem hnd hterm hc
  refine ⟨hpick, ?_, processOne_events now env db⟩
  unfold processOne
  cases hcl : claimStep now db.rows with
  | none => exact hmem
  | some p =>
    obtain ⟨c, rows1⟩ := p
    unfold claimStep at hcl
    cases hp : pickCandidate now db.rows with
    | none => rw [hp] at hcl; cases hcl
    | some c0 =>
      rw [hp] at hcl
      have hc1 : applyClaim c0 = c := by cases hcl; rfl
      have hc2 : updRow db.rows c0.id applyClaim = rows1 := by cases hcl; rfl
      have hne : r.id ≠ c0.id := fun hh => (hpick c0 hp) hh.symm
      have hr1 : r ∈ rows1 := hc2 ▸ mem_updRow_of_ne db.rows c0.id applyClaim r hmem hne
      have hcid : c.id = c0.id := by rw [← hc1]; rfl
      have hne' : r.id ≠ c.id := by rw [hcid]; exact hne
      exact processClaimed_rows_mem now env ⟨rows1, db.events⟩ c.id r hr1 hne'

/-- Witness for C7: a concrete table holding a `sent` row and a queued
row; the worker step claims the queued row and leaves the sent row
untouched. -/
theorem terminal_states_absorbing_witness :
    (∀ c, pickCandidate 5 [rowSent, row8] = some c → c.id ≠ rowSent.id) ∧
    rowSent ∈ (stepDb (processOne 5 ⟨.err 500 "bridge_500", true, true⟩
      ⟨[rowSent, row8], []⟩)).rows ∧
    (stepDb (processOne 5 ⟨.err 500 "bridge_500", true, true⟩
      ⟨[rowSent, row8], []⟩)).events = ([] : List String) :=
  terminal_states_absorbing 5 ⟨.err 500 "bridge_500", true, true⟩
    ⟨[rowSent, row8], []⟩ rowSent (by simp) (by decide) (Or.inl rfl)

/-- C8 counterexample: the claim transaction commits immediately and
leaves the claimed row `queued` with its `next_attempt_at` unchanged, so
a second claim that runs after the first one committed — while the first
worker is still sending — selects the very same row: both workers process
row 1.  This falsifies "rows claimed by one worker are invisible to
concurrent selections, and no two workers ever process the same row
twice". -/
theorem claim_not_exclusive_counterexample :
    claimStep 5 [row8] = some (applyClaim row8, [applyClaim row8]) ∧
    claimStep 5 [applyClaim row8]
      = some (applyClaim (applyClaim row8), [applyClaim (applyClaim row8)]) ∧
    (applyClaim row8).id = row8.id ∧
    (applyClaim row8).status = some "queued" ∧
    (applyClaim row8).next_attempt_at = row8.next_attempt_at := by
  refine ⟨by decide, by decide, rfl, rfl, rfl⟩

/-- C8 amended: while the pick transaction is open (the row lock is
held), a concurrent FOR UPDATE SKIP LOCKED selection never returns the
same row, so of two overlapping claim attempts on one row exactly one
succeeds; but the committed claim leaves the row eligible (status still
`queued`, `next_attempt_at` unchanged), so once the pick transaction
commits — before the outcome UPDATE lands — a later claim can select the
same row again, and the same row can be processed twice. -/
theorem claim_exclusive_only_while_pick_open (now : Nat) (rows rows1 : List Row)
    (c : Row) (h : claimStep now rows = some (c, rows1)) :
    (∀ d, pickCandidateLocked now [c.id] rows = some d → d.id ≠ c.id) ∧
    eligible now c = true := by
  constructor
  · intro d hd hid
    exact pickCandidateLocked_skips now [c.id] rows d hd (by simp [hid])
  · unfold claimStep at h
    cases hp : pickCandidate now rows with
    | none => rw [hp] at h; cases h
    | some c0 =>
      rw [hp] at h
      have hc1 : applyClaim c0 = c := by cases h; rfl
      have he := (pickCandidate_spec now rows c0 hp).2
      rw [← hc1]
      exact he

/-- Witness for C8's amended statement at the concrete single-row table. -/
theorem claim_exclusive_only_while_pick_open_witness :
    (∀ d, pickCandidateLocked 5 [(applyClaim row8).id] [row8] = some d →
      d.id ≠ (applyClaim row8).id) ∧
    eligible 5 (applyClaim row8) = true :=
  claim_exclusive_only_while_pick_open 5 [row8] [applyClaim row8]
    (applyClaim row8) (by decide)

/-- C2 counterexample: a 429 outcome, which the claim classifies as
retryable, is terminal in the worker: `processOne`'s catch treats every
code in [400, 500) — including 429 and 408 — as permanent, so the row is
marked `permanently_failed` instead of being rescheduled. -/
theorem worker_429_terminal_counterexample :
    processOne 5 ⟨.err 429 "bridge_429", true, true⟩ ⟨[row8], []⟩
      = .done ⟨[markPermanentlyFailed 5 "bridge_429" (applyClaim row8)], []⟩ ∧
    (markPermanentlyFailed 5 "bridge_429" (applyClaim row8)).status
      = some "permanently_failed" := by
  refine ⟨by decide, rfl⟩

/-- C2 amended: 2xx with an ok body is success.  The HTTP client's
`shouldRetry` marks 5xx, 429 and 408 retryable and the remaining 4xx
codes (and a network failure recorded as status 0) non-retryable.  The
retry worker, by contrast, classifies every code in [400, 500) —
including 408 and 429 — as terminal (`permanently_failed`), and every
other failure (5xx, and network errors whose missing code coerces to 0)
as retryable with rescheduling. -/
theorem outcome_classification_amended (s code now : Nat) (r : Row)
    (evs : List String) (message : String) (waId : Option String)
    (helig : eligible now r = true) :
    (500 ≤ s → WaClient.shouldRetry s = true) ∧
    WaClient.shouldRetry 429 = true ∧
    WaClient.shouldRetry 408 = true ∧
    WaClient.shouldRetry 0 = false ∧
    (400 ≤ s → s < 500 → s ≠ 429 → s ≠ 408 → WaClient.shouldRetry s = false) ∧
    (200 ≤ s → s < 300 → WaClient.sendTextOutcome s true waId = .ok waId) ∧
    processOne now ⟨.ok waId, true, true⟩ ⟨[r], evs⟩
      = .done ⟨[markSent waId (applyClaim r)], evs⟩ ∧
    (400 ≤ code → code < 500 →
      processOne now ⟨.err code message, true, true⟩ ⟨[r], evs⟩
        = .done ⟨[markPermanentlyFailed now message (applyClaim r)], evs⟩) ∧
    (code < 400 ∨ 500 ≤ code →
      processOne now ⟨.err code message, true, true⟩ ⟨[r], evs⟩
        = .done ⟨[markRequeued now message (applyClaim r)], evs⟩) ∧
    (markSent waId (applyClaim r)).status = some "sent" ∧
    (markPermanentlyFailed now message (applyClaim r)).status
      = some "permanently_failed" ∧
    (markRequeued now message (applyClaim r)).status = some "queued" := by
  refine ⟨?_, rfl, rfl, rfl, ?_, ?_,
    processOne_single_ok now r evs waId helig, ?_, ?_, rfl, rfl, rfl⟩
  · intro h
    simp [WaClient.shouldRetry]
    omega
  · intro h1 h2 h3 h4
    simp [WaClient.shouldRetry]
    omega
  · intro h1 h2
    simp [WaClient.sendTextOutcome, h1, h2]
  · intro h1 h2
    exact processOne_single_err_terminal now code r evs message helig h1 h2
  · intro h1
    exact processOne_single_err_retry now code r evs message helig (by omega)

/-- Witness for C2's amended statement on a concrete eligible row. -/
theorem outcome_classification_amended_witness :
    (500 ≤ 503 → WaClient.shouldRetry 503 = true) ∧
    WaClient.shouldRetry 429 = true ∧
    WaClient.shouldRetry 408 = true ∧
    WaClient.shouldRetry 0 = false ∧
    (400 ≤ 503 → 503 < 500 → 503 ≠ 429 → 503 ≠ 408 → WaClient.shouldRetry 503 = false) ∧
    (200 ≤ 503 → 503 < 300 → WaClient.sendTextOutcome 503 true (some "w") = .ok (some "w")) ∧
    processOne 5 ⟨.ok (some "w"), true, true⟩ ⟨[row8], []⟩
      = .done ⟨[markSent (some "w") (applyClaim row8)], []⟩ ∧
    (400 ≤ 404 → 404 < 500 →
      processOne 5 ⟨.err 404 "bridge_404", true, true⟩ ⟨[row8], []⟩
        = .done ⟨[markPermanentlyFailed 5 "bridge_404" (applyClaim row8)], []⟩) ∧
    (404 < 400 ∨ 500 ≤ 404 →
      processOne 5 ⟨.err 404 "bridge_404", true, true⟩ ⟨[row8], []⟩
        = .done ⟨[markRequeued 5 "bridge_404" (applyClaim row8)], []⟩) ∧
    (markSent (some "w") (applyClaim row8)).status = some "sent" ∧
    (markPermanentlyFailed 5 "bridge_404" (applyClaim row8)).status
      = some "permanently_failed" ∧
    (markRequeued 5 "bridge_404" (applyClaim row8)).status = some "queued" :=
  outcome_classification_amended 503 404 5 row8 [] "bridge_404" (some "w") (by decide)

/-- C3: the code contradicts its own documentation.  Evaluated at the
failing inputs: (i) a terminal failure in the worker sets
`permanently_failed` with `last_error` and `last_error_at`, but no
dead-letter event is ever written — the worker never touches the events
table under any environment; (ii) a retryable failure with
`attempt_count` far above the documented cap of 4 is still requeued, the
worker applies no attempt cap at all; (iii) in the send route, the gate
`DLQ_ENABLED === 'true'` treats an absent variable — the documented
default of true — as disabled, emitting zero events, and emits exactly
one only when the variable is literally `"true"`. -/
theorem deadletter_accounting_eval :
    processOne 5 ⟨.err 400 "bridge_400", true, true⟩ ⟨[row8], []⟩
      = .done ⟨[markPermanentlyFailed 5 "bridge_400" (applyClaim row8)], []⟩ ∧
    (markPermanentlyFailed 5 "bridge_400" (applyClaim row8)).status
      = some "permanently_failed" ∧
    (markPermanentlyFailed 5 "bridge_400" (applyClaim row8)).last_error
      = some "bridge_400" ∧
    (markPermanentlyFailed 5 "bridge_400" (applyClaim row8)).last_error_at = some 5 ∧
    (∀ (env : Env) (db : WDb), (stepDb (processOne 5 env db)).events = db.events) ∧
    processOne 5 ⟨.err 500 "bridge_500", true, true⟩ ⟨[rowMany], []⟩
      = .done ⟨[markRequeued 5 "bridge_500" (applyClaim rowMany)], []⟩ ∧
    (markRequeued 5 "bridge_500" (applyClaim rowMany)).status = some "queued" ∧
    (SendRoute.sendTextFailurePath 0 1 none "HTTP 500" 0).status
      = "permanently_failed" ∧
    (SendRoute.sendTextFailurePath 0 1 none "HTTP 500" 0).dlqEventCount = 0 ∧
    (SendRoute.sendTextFailurePath 0 1 (some "true") "HTTP 500" 0).dlqEventCount = 1 := by
  refine ⟨?_, rfl, rfl, rfl, fun env db => processOne_events 5 env db, ?_, rfl, rfl, rfl, rfl⟩
  · exact processOne_single_err_terminal 5 400 row8 [] "bridge_400" (by decide)
      (by omega) (by omega)
  · exact processOne_single_err_retry 5 500 rowMany [] "bridge_500" (by decide) (by omega)

/-- C4 counterexample: with two queued rows and a store that rejects the
outcome UPDATE, the very first iteration's bridge failure escapes
`processOne`, `runForever` rejects, and the loop is dead: the second row
is never processed even though plenty of iterations remained. -/
theorem worker_loop_halts_counterexample :
    runLoop crashLoopEnv 5 4 0 ⟨[row8, row9], []⟩
      = (⟨[applyClaim row8, row9], []⟩, .stopped) ∧
    row9.status = some "queued" := by
  refine ⟨by decide, rfl⟩

/-- C4 amended: a Bridge Client send failure is caught inside
`processOne` (its catch writes the failure onto the row) and the loop
continues; but an error escaping `processOne` — a store failure while
writing the outcome — rejects `runForever`, which `startRetryProcessor`
catches exactly once, logging and permanently halting the loop.  With a
healthy store the loop never halts, whatever the bridge does. -/
theorem worker_loop_never_halts_healthy (le : LoopEnv)
    (hstore : ∀ j, le.failUpdOkAt j = true) :
    ∀ (now fuel i : Nat) (db : WDb), (runLoop le now fuel i db).2 = .fuelSpent := by
  intro now fuel
  induction fuel with
  | zero => intro i db; rfl
  | succ n ih =>
    intro i db
    unfold runLoop
    cases hstep : processOne now (envAt le i) db with
    | idle db' => exact ih (i + 1) db'
    | done db' => exact ih (i + 1) db'
    | crash db' =>
      have hf := processOne_crash_store now (envAt le i) db db' hstep
      simp [envAt] at hf
      rw [hstore i] at hf
      cases hf

/-- Witness for C4's amended statement: a healthy-store loop with a
failing bridge runs its whole observation budget. -/
theorem worker_loop_never_halts_healthy_witness :
    (runLoop healthyLoopEnv 5 3 0 ⟨[row8, row9], []⟩).2 = .fuelSpent :=
  worker_loop_never_halts_healthy healthyLoopEnv (fun _ => rfl) 5 3 0 ⟨[row8, row9], []⟩

/-- C6 counterexample: the first retryable failure handled by the worker
leaves the row queued with attempt_count 1 as the claim says, but
`next_attempt_at` is now + 60 s (30 s · min(10, attempt_count + 1), no
jitter), not now + 1 s within a 200 ms jitter bound. -/
theorem backoff_first_retry_counterexample :
    processOne 0 ⟨.err 500 "bridge_500", true, true⟩ ⟨[row8], []⟩
      = .done ⟨[markRequeued 0 "bridge_500" (applyClaim row8)], []⟩ ∧
    (applyClaim row8).attempt_count = some 1 ∧
    (markRequeued 0 "bridge_500" (applyClaim row8)).status = some "queued" ∧
    (markRequeued 0 "bridge_500" (applyClaim row8)).next_attempt_at = some 60000 ∧
    ¬ (60000 : Nat) ≤ 0 + 1000 + 200 := by
  refine ⟨?_, rfl, rfl, rfl, by decide⟩
  exact processOne_single_err_retry 0 500 row8 [] "bridge_500" (by decide) (by omega)

/-- C6 amended: the schedule-indexed backoff with jitter in [0, 200 ms]
holds on the initial-send path (`calculateNextAttempt` in
src/src/routes/send.js): bases 1 s, 4 s, 15 s and then 60 s for every
later attempt, and after the first retryable failure there the message is
queued with attempt_count 1 and next_attempt_at = now + 1 s + jitter ≤
now + 1.2 s.  The retry worker, however, reschedules with
next_attempt_at = now + 30 s · min(10, attempt_count + 1) and no jitter. -/
theorem backoff_schedule_amended (now j : Nat) (r : Row) (evs : List String)
    (message : String) (hj : j ≤ SendRoute.defaultJitterMs)
    (helig : eligible now r = true) :
    SendRoute.calculateNextAttempt now 1 j = now + 1000 + j ∧
    SendRoute.calculateNextAttempt now 2 j = now + 4000 + j ∧
    SendRoute.calculateNextAttempt now 3 j = now + 15000 + j ∧
    (∀ n, 4 ≤ n → SendRoute.calculateNextAttempt now n j = now + 60000 + j) ∧
    now + 1000 + j ≤ now + 1200 ∧
    (SendRoute.sendTextFailurePath now 4 none message j).status = "queued" ∧
    (SendRoute.sendTextFailurePath now 4 none message j).attempt_count = 1 ∧
    (SendRoute.sendTextFailurePath now 4 none message j).next_attempt_at
      = some (now + 1000 + j) ∧
    processOne now ⟨.err 500 message, true, true⟩ ⟨[r], evs⟩
      = .done ⟨[markRequeued now message (applyClaim r)], evs⟩ ∧
    (markRequeued now message (applyClaim r)).next_attempt_at
      = some (now + 30000 * Nat.min 10 (r.attempt_count.getD 0 + 1 + 1)) := by
  refine ⟨rfl, rfl, rfl, ?_, ?_, rfl, rfl, rfl, ?_, rfl⟩
  · intro n hn
    simp only [SendRoute.calculateNextAttempt, SendRoute.defaultScheduleStr]
    have h3 : Nat.min (n - 1) (List.length ["1s", "4s", "15s", "60s"] - 1) = 3 := by
      simp
      omega
    rw [h3]
    rfl
  · have hj' : j ≤ 200 := hj
    omega
  · exact processOne_single_err_retry now 500 r evs message helig (by omega)

/-- Witness for C6's amended statement at the concrete scenario values
(jitter at its 200 ms bound, a freshly enqueued row for the worker). -/
theorem backoff_schedule_amended_witness :
    SendRoute.calculateNextAttempt 0 1 200 = 0 + 1000 + 200 ∧
    SendRoute.calculateNextAttempt 0 2 200 = 0 + 4000 + 200 ∧
    SendRoute.calculateNextAttempt 0 3 200 = 0 + 15000 + 200 ∧
    (∀ n, 4 ≤ n → SendRoute.calculateNextAttempt 0 n 200 = 0 + 60000 + 200) ∧
    0 + 1000 + 200 ≤ 0 + 1200 ∧
    (SendRoute.sendTextFailurePath 0 4 none "HTTP 500" 200).status = "queued" ∧
    (SendRoute.sendTextFailurePath 0 4 none "HTTP 500" 200).attempt_count = 1 ∧
    (SendRoute.sendTextFailurePath 0 4 none "HTTP 500" 200).next_attempt_at
      = some (0 + 1000 + 200) ∧
    processOne 0 ⟨.err 500 "HTTP 500", true, true⟩ ⟨[row8], []⟩
      = .done ⟨[markRequeued 0 "HTTP 500" (applyClaim row8)], []⟩ ∧
    (markRequeued 0 "HTTP 500" (applyClaim row8)).next_attempt_at
      = some (0 + 30000 * Nat.min 10 (row8.attempt_count.getD 0 + 1 + 1)) :=
  backoff_schedule_amended 0 200 row8 [] "HTTP 500" (by decide) (by decide)

end RetryQ

namespace Breaker

theorem recordAttempt_closed_fail (k t u : Nat) (hk : k + 1 < failThreshold) :
    recordAttempt ⟨true, some ⟨.closed, k, 0, none, u⟩⟩ t false
      = ⟨true, some ⟨.closed, k + 1, 0, none, t⟩⟩ := by
  show (if failThreshold ≤ k + 1
      then updateBreakerState ⟨true, some ⟨.closed, k, 0, none, u⟩⟩ .opened (k + 1) 0 t
      else updateBreakerState ⟨true, some ⟨.closed, k, 0, none, u⟩⟩ .closed (k + 1) 0 t) = _
  rw [if_neg (by omega)]
  rfl

theorem recordAttempt_closed_fail_opens (k t u : Nat) (hk : failThreshold ≤ k + 1) :
    recordAttempt ⟨true, some ⟨.closed, k, 0, none, u⟩⟩ t false
      = ⟨true, some ⟨.opened, k + 1, 0, some t, t⟩⟩ := by
  show (if failThreshold ≤ k + 1
      then updateBreakerState ⟨true, some ⟨.closed, k, 0, none, u⟩⟩ .opened (k + 1) 0 t
      else updateBreakerState ⟨true, some ⟨.closed, k, 0, none, u⟩⟩ .closed (k + 1) 0 t) = _
  rw [if_pos hk]
  rfl

theorem recordFailures_closed (ts : List Nat) : ∀ (k u : Nat),
    k + ts.length < failThreshold →
    recordFailures ⟨true, some ⟨.closed, k, 0, none, u⟩⟩ ts
      = ⟨true, some ⟨.closed, k + ts.length, 0, none, ts.getLastD u⟩⟩ := by
  induction ts with
  | nil =>
    intro k u h
    simp [recordFailures]
  | cons t ts ih =>
    intro k u h
    have harith : k + (t :: ts).length = k + 1 + ts.length := by
      simp [List.length_cons]
      omega
    rw [harith, List.getLastD_cons]
    unfold recordFailures
    simp only [List.foldl_cons]
    rw [recordAttempt_closed_fail k t u (by simp [List.length_cons] at h; omega)]
    have hres := ih (k + 1) t (by simp [List.length_cons] at h; omega)
    unfold recordFailures at hres
    exact hres

/-- C5 counterexample: a failure while half_open reopens the breaker
with `opened_at = now` and `success_count = 0`, but `failure_count` is
set to 1, not reset to 0 — the counters are not both reset as the claim
states. -/
theorem breaker_halfopen_failure_counterexample :
    recordAttempt ⟨true, some ⟨.halfOpen, 0, 0, none, 0⟩⟩ 5 false
      = ⟨true, some ⟨.opened, 1, 0, some 5, 5⟩⟩ ∧
    (1 : Nat) ≠ 0 := ⟨rfl, by decide⟩

/-- C5 amended: starting from the implicit closed state, seven recorded
failures leave the breaker closed with the failure count tracking them;
the eighth (the failure threshold) opens it with `opened_at` the time of
that failure.  Once the 60 s cooldown has elapsed since `opened_at`, the
next `isRequestAllowed` call rewrites the row to half_open with both
counters reset to 0 and returns true.  Three consecutive successes while
half_open close the breaker with both counters reset to 0.  A failure
while half_open immediately reopens it with `opened_at = now` and
`success_count = 0` — but with `failure_count` set to 1, not 0. -/
theorem breaker_transitions_amended
    (ts : List Nat) (t8 u t1 t2 t3 t now topen fc sc : Nat) (oa : Option Nat)
    (hlen : ts.length = 7)
    (hcool : 1000 * halfOpenAfterSec ≤ now - topen) :
    recordFailures ⟨true, none⟩ ts
      = ⟨true, some ⟨.closed, 7, 0, none, ts.getLastD 0⟩⟩ ∧
    recordAttempt (recordFailures ⟨true, none⟩ ts) t8 false
      = ⟨true, some ⟨.opened, 8, 0, some t8, t8⟩⟩ ∧
    isRequestAllowed ⟨true, some ⟨.opened, fc, sc, some topen, u⟩⟩ now
      = (true, ⟨true, some ⟨.halfOpen, 0, 0, none, now⟩⟩) ∧
    recordAttempt (recordAttempt (recordAttempt
        ⟨true, some ⟨.halfOpen, 0, 0, none, u⟩⟩ t1 true) t2 true) t3 true
      = ⟨true, some ⟨.closed, 0, 0, none, t3⟩⟩ ∧
    recordAttempt ⟨true, some ⟨.halfOpen, fc, sc, oa, u⟩⟩ t false
      = ⟨true, some ⟨.opened, 1, 0, some t, t⟩⟩ := by
  have h1 : recordFailures ⟨true, none⟩ ts
      = ⟨true, some ⟨.closed, 7, 0, none, ts.getLastD 0⟩⟩ := by
    cases ts with
    | nil => simp at hlen
    | cons t0 ts' =>
      have hlen' : ts'.length = 6 := by simpa using hlen
      rw [List.getLastD_cons]
      unfold recordFailures
      simp only [List.foldl_cons]
      rw [show recordAttempt ⟨true, none⟩ t0 false
          = ⟨true, some ⟨.closed, 1, 0, none, t0⟩⟩ from rfl]
      have hres := recordFailures_closed ts' 1 t0 (by rw [hlen']; decide)
      unfold recordFailures at hres
      rw [hres, hlen']
  have hg : getBreakerState ⟨true, some ⟨.opened, fc, sc, some topen, u⟩⟩ now
      = (.halfOpen, ⟨true, some ⟨.halfOpen, 0, 0, none, now⟩⟩) := by
    show (if 1000 * halfOpenAfterSec ≤ now - topen
        then ((.halfOpen, updateBreakerState
          ⟨true, some ⟨.opened, fc, sc, some topen, u⟩⟩ .halfOpen 0 0 now) : BState × BStore)
        else (.opened, ⟨true, some ⟨.opened, fc, sc, some topen, u⟩⟩)) = _
    rw [if_pos hcool]
    rfl
  refine ⟨h1, ?_, ?_, rfl, rfl⟩
  · rw [h1]
    exact recordAttempt_closed_fail_opens 7 t8 (ts.getLastD 0) (by decide)
  · simp only [isRequestAllowed, hg]
    rfl

/-- Witness for C5's amended statement at concrete times (failures at
1..7, the opening failure at 8, cooldown elapsed at 70000 ms). -/
theorem breaker_transitions_amended_witness :
    recordFailures ⟨true, none⟩ [1, 2, 3, 4, 5, 6, 7]
      = ⟨true, some ⟨.closed, 7, 0, none, [1, 2, 3, 4, 5, 6, 7].getLastD 0⟩⟩ ∧
    recordAttempt (recordFailures ⟨true, none⟩ [1, 2, 3, 4, 5, 6, 7]) 8 false
      = ⟨true, some ⟨.opened, 8, 0, some 8, 8⟩⟩ ∧
    isRequestAllowed ⟨true, some ⟨.opened, 8, 0, some 0, 0⟩⟩ 70000
      = (true, ⟨true, some ⟨.halfOpen, 0, 0, none, 70000⟩⟩) ∧
    recordAttempt (recordAttempt (recordAttempt
        ⟨true, some ⟨.halfOpen, 0, 0, none, 0⟩⟩ 10 true) 11 true) 12 true
      = ⟨true, some ⟨.closed, 0, 0, none, 12⟩⟩ ∧
    recordAttempt ⟨true, some ⟨.halfOpen, 8, 0, some 0, 0⟩⟩ 9 false
      = ⟨true, some ⟨.opened, 1, 0, some 9, 9⟩⟩ :=
  breaker_transitions_amended [1, 2, 3, 4, 5, 6, 7] 8 0 10 11 12 9 70000 0 8 0
    (some 0) rfl (by decide)

/-- C9: when the store is unavailable every breaker query throws, the
catch blocks swallow the error, `getBreakerState` reports closed,
`isRequestAllowed` returns true, and `recordAttempt` is a no-op — all
three return normally (they are total here: no StoreError reaches the
caller), so dispatch proceeds as if the breaker were closed. -/
theorem breaker_fails_permissive (s : BStore) (now : Nat) (success : Bool)
    (hdown : s.available = false) :
    getBreakerState s now = (.closed, s) ∧
    isRequestAllowed s now = (true, s) ∧
    recordAttempt s now success = s := by
  obtain ⟨avail, row⟩ := s
  cases avail with
  | true => simp at hdown
  | false => cases success <;> exact ⟨rfl, rfl, rfl⟩

/-- Witness for C9 with an unavailable store and an empty row. -/
theorem breaker_fails_permissive_witness :
    getBreakerState ⟨false, none⟩ 0 = (.closed, ⟨false, none⟩) ∧
    isRequestAllowed ⟨false, none⟩ 0 = (true, ⟨false, none⟩) ∧
    recordAttempt ⟨false, none⟩ 0 true = ⟨false, none⟩ :=
  breaker_fails_permissive ⟨false, none⟩ 0 true rfl

end Breaker

end WooshLifts
